import Mathlib

/-!
Verification of the traktarr core business logic (core/business_logic.py and
misc/config.py) against its natural language specification. The Python code is
shallowly embedded: dictionary accesses and external service calls that may
raise are modelled as Except values supplied by oracles, process wide mutable
state (the configuration singleton) is threaded explicitly, and the side
effects of one invocation (log lines, notifications, adapter calls, sleeps)
are collected into an action trace.
-/

deriving instance DecidableEq for Except

namespace Traktarr

/-- Exceptions raised by the Python code, modelled as their messages. -/
abbrev Exn := String

/-- Result of one read of the raw Trakt item dictionary or of one external
call: the operation can raise an exception. -/
abbrev FieldRead (α : Type) := Except Exn α

/-- Shallow embedding of one Trakt media item as consumed by the per item loop
of the media processing pipeline in core/business_logic.py. Each field models
one dictionary access on the item (for shows the tvdb id, for movies the tmdb
id, and so on) and may raise, for example on a missing key. -/
structure Envelope where
  title : FieldRead String
  tmdb : FieldRead (Option Int)
  imdb : FieldRead (Option String)
  tvdb : FieldRead (Option Int)
  slug : FieldRead (Option String)
  year : FieldRead (Option Int)
  genres : FieldRead (List String)
  country : Option String
  language : Option String
deriving DecidableEq

/-- Results of the external calls made while processing one item inside the
try block of the per item loop (core/business_logic.py lines 581 to 699).
Each field is the outcome of one call: a value, or an exception raised inside
the try block. -/
structure ItemOracle where
  /-- tmdb_helper.check_show_tmdb_id or check_movie_tmdb_id. -/
  validateFunc : FieldRead Bool
  /-- misc_helper.allowed_genres for the genre inclusion filter. -/
  allowedGenres : FieldRead Bool
  /-- trakt_helper.is_show_blacklisted or is_movie_blacklisted. -/
  isBlacklisted : FieldRead Bool
  /-- omdb_helper.does_movie_have_min_req_rt_score. -/
  rtOk : FieldRead Bool
  /-- get_language_profile_id result (shows only; the helper logs but never
  aborts, whatever the id). -/
  langProfileId : FieldRead Int
  /-- pvr.get_tags as consumed by get_profile_tags; an ok none value makes
  get_profile_tags call exit and terminate the process. -/
  tagsCall : FieldRead (Option (List (String × Nat)))
  /-- pvr.add_series or pvr.add_movie success flag. -/
  addResult : FieldRead Bool
deriving DecidableEq

/-- One element of the sorted list inside the per item loop. -/
structure Item where
  env : Envelope
  oracle : ItemOracle
deriving DecidableEq

inductive MediaType
  | shows
  | movies
deriving DecidableEq

/-- Parameters of the per item loop, as fixed before the loop starts inside
the media processing pipeline. -/
structure Params where
  mediaType : MediaType
  addLimit : Nat
  dryRun : Bool
  notifications : Bool
  /-- validate_func is not None (always true for movies; for shows it depends
  on a hasattr check on the tmdb helper). -/
  hasValidateFunc : Bool
  /-- the genres argument survived argument processing as a non empty list. -/
  genreFilterActive : Bool
  rottenTomatoes : Option Int
  /-- cfg.omdb.api_key is truthy. -/
  omdbKeySet : Bool
  /-- cfg.sonarr.tags is not None. -/
  sonarrTagsSet : Bool
deriving DecidableEq

/-- The display variables computed for one item before the try block
(core/business_logic.py lines 571 to 579). -/
structure Display where
  title : String
  tmdbId : Option Int
  imdbId : Option String
  yearStr : String
  genresStr : String
deriving DecidableEq

/-- Conversion of the optional year to a display string: a falsy year (absent
or zero) is rendered as the sentinel. -/
def yearString : Option Int → String
  | some y => if y = 0 then "????" else toString y
  | none => "????"

/-- Joined genre list for display; a falsy (empty) list is rendered as N/A.
The Python code additionally title cases the joined string, a display only
transformation not modelled here. -/
def genresString (gs : List String) : String :=
  if gs = [] then "N/A" else String.intercalate ", " gs

/-- The item variable extraction performed before the try block
(core/business_logic.py lines 571 to 579). An exception here is raised
outside the try block of the loop body. -/
def extractDisplay (e : Envelope) : Except Exn Display := do
  let t ← e.title
  let tm ← e.tmdb
  let im ← e.imdb
  let y ← e.year
  let gs ← e.genres
  pure { title := t, tmdbId := tm, imdbId := im,
         yearStr := yearString y, genresStr := genresString gs }

/-- Observable effects of the pipeline: log lines, notification messages,
inventory and catalog adapter calls, and the inter item sleep. -/
inductive Action
  | logInfo (msg : String)
  | logError (msg : String)
  | logWarn (msg : String)
  | logExn (title : String)
  | notifyError (reason : String)
  | notifyAbort (reason : String)
  | notifyAdded (title : String)
  | notifySummary (count : Nat)
  | callValidateTrakt
  | callValidatePvr
  | callGetQualityProfile
  | callGetObjects
  | callGetExclusions
  | callGetTraktList
  | callReconcile
  | callCheckTmdb (title : String)
  | callGetLanguageProfile
  | callGetTags
  | submit (title : String)
  | sleepDelay
deriving DecidableEq

/-- Outcome of the statements of the try block before the add limit check and
the inter item sleep: either control falls through to those two statements, or
a continue statement moves to the next item, or an exception was raised, or
the process exited (get_profile_tags calls exit when the tag listing is
None). -/
inductive AddStep
  | fallthrough (added : Nat)
  | cont (added : Nat)
  | exn (msg : Exn)
  | exited
deriving DecidableEq

/-- Sequence a fallible read or call inside the try block with the rest of the
body: a raised exception short circuits the body. -/
def readThen {α : Type} (r : FieldRead α) (k : α → List Action × AddStep) :
    List Action × AddStep :=
  match r with
  | .error m => ([], AddStep.exn m)
  | .ok a => k a

/-- Prefix the action list of a body fragment. -/
def withActs (pre : List Action) (r : List Action × AddStep) :
    List Action × AddStep :=
  (pre ++ r.1, r.2)

/-- The rating gate applies only for movies with a requested minimum Rotten
Tomatoes score and a configured OMDb api key. -/
def rtGateActive (p : Params) : Bool :=
  decide (p.mediaType = MediaType.movies) && p.rottenTomatoes.isSome && p.omdbKeySet

/-- The series type detection and add_series call of the show submission
branch (core/business_logic.py lines 649 to 689): the genres, the tvdb id,
the title and the slug are read again from the raw item inside the try block,
then the call is made; on reported success the optional notification is sent
and the added count incremented, on reported failure the failure is logged
and a continue statement moves to the next item. -/
def addShowSubmit (p : Params) (it : Item) (added : Nat) : List Action × AddStep :=
  readThen it.env.genres fun _ =>
  readThen it.env.tvdb fun _ =>
  readThen it.env.title fun title =>
  readThen it.env.slug fun _ =>
  withActs [Action.submit title] <|
  readThen it.oracle.addResult fun res =>
    if res then
      ((if p.notifications then [Action.notifyAdded title] else []),
       AddStep.fallthrough (added + 1))
    else
      ([Action.logError ("FAILED ADDING: " ++ title)], AddStep.cont added)

/-- Shallow embedding of the submission branch for shows
(core/business_logic.py lines 632 to 666): language profile lookup, optional
tag retrieval (where an absent tag listing exits the process), then the
add_series call. -/
def addShowPath (p : Params) (it : Item) (added : Nat) : List Action × AddStep :=
  withActs [Action.callGetLanguageProfile] <|
  readThen it.oracle.langProfileId fun _ =>
  if p.sonarrTagsSet then
    withActs [Action.callGetTags] <|
    match it.oracle.tagsCall with
    | .error m => ([], AddStep.exn m)
    | .ok none => ([], AddStep.exited)
    | .ok (some _) => addShowSubmit p it added
  else addShowSubmit p it added

/-- Shallow embedding of the submission branch for movies
(core/business_logic.py lines 668 to 677): the add_movie call with arguments
read again from the raw item dictionary. -/
def addMoviePath (p : Params) (it : Item) (added : Nat) : List Action × AddStep :=
  readThen it.env.tmdb fun _ =>
  readThen it.env.title fun title =>
  readThen it.env.year fun _ =>
  readThen it.env.slug fun _ =>
  withActs [Action.submit title] <|
  readThen it.oracle.addResult fun res =>
    if res then
      ((if p.notifications then [Action.notifyAdded title] else []),
       AddStep.fallthrough (added + 1))
    else
      ([Action.logError ("FAILED ADDING: " ++ title)], AddStep.cont added)

/-- The adding stage of the try block (core/business_logic.py lines 620 to
689): the ADDING log line, then either the dry run log or the media kind
specific submission branch. -/
def bodyAdd (p : Params) (it : Item) (disp : Display) (added : Nat) :
    List Action × AddStep :=
  withActs [Action.logInfo ("ADDING: " ++ disp.title)] <|
  if p.dryRun then
    ([Action.logInfo "dry-run: SKIPPING"], AddStep.fallthrough added)
  else
    match p.mediaType with
    | MediaType.shows => addShowPath p it added
    | MediaType.movies => addMoviePath p it added

/-- The rating gate of the try block (core/business_logic.py lines 609 to
618): for movies with a requested minimum score and a configured OMDb key,
an unmet score skips the item with a continue statement. -/
def bodyRt (p : Params) (it : Item) (disp : Display) (added : Nat) :
    List Action × AddStep :=
  if rtGateActive p then
    readThen it.oracle.rtOk fun ok =>
      if ok then bodyAdd p it disp added else ([], AddStep.cont added)
  else bodyAdd p it disp added

/-- The blacklist stage of the try block (core/business_logic.py lines 592
to 692): a blacklisted item is logged as skipped and skipped with a continue
statement. -/
def bodyBlacklist (p : Params) (it : Item) (disp : Display) (added : Nat) :
    List Action × AddStep :=
  readThen it.oracle.isBlacklisted fun bl =>
    if bl then ([Action.logInfo ("SKIPPED: " ++ disp.title)], AddStep.cont added)
    else bodyRt p it disp added

/-- The genre inclusion filter stage of the try block
(core/business_logic.py lines 586 to 590). -/
def bodyGenre (p : Params) (it : Item) (disp : Display) (added : Nat) :
    List Action × AddStep :=
  if p.genreFilterActive then
    readThen it.oracle.allowedGenres fun ok =>
      if ok then bodyBlacklist p it disp added
      else ([Action.logInfo ("SKIPPING: " ++ disp.title)], AddStep.cont added)
  else bodyBlacklist p it disp added

/-- Shallow embedding of the try block body of the per item loop before the
add limit check and the inter item sleep (core/business_logic.py lines 581 to
692): external catalog validation, genre inclusion filter, blacklist
evaluation, rating gate, then the dry run branch or the submission branch. -/
def itemBody (p : Params) (it : Item) (disp : Display) (added : Nat) :
    List Action × AddStep :=
  if p.hasValidateFunc then
    withActs [Action.callCheckTmdb disp.title] <|
    readThen it.oracle.validateFunc fun ok =>
      if ok then bodyGenre p it disp added else ([], AddStep.cont added)
  else bodyGenre p it disp added

/-- Outcome of the whole try block of the loop body: normal completion carries
the updated added count and whether the add limit break fired. -/
inductive TryResult
  | ok (added : Nat) (brk : Bool)
  | exn (msg : Exn)
  | exited
deriving DecidableEq

/-- Shallow embedding of the full try block (core/business_logic.py lines 581
to 699): the body, then on fall through the add limit check (a limit of zero
never breaks) and the inter item sleep. A continue statement skips both. -/
def tryBody (p : Params) (it : Item) (disp : Display) (added : Nat) :
    List Action × TryResult :=
  match itemBody p it disp added with
  | (acts, AddStep.exn m) => (acts, TryResult.exn m)
  | (acts, AddStep.exited) => (acts, TryResult.exited)
  | (acts, AddStep.cont a) => (acts, TryResult.ok a false)
  | (acts, AddStep.fallthrough a) =>
    if p.addLimit ≠ 0 ∧ p.addLimit ≤ a then (acts, TryResult.ok a true)
    else (acts ++ [Action.sleepDelay], TryResult.ok a false)

/-- Result of the per item loop: normal exhaustion or break (with the not yet
evaluated suffix of the list), an exception raised outside the try block, or a
process exit. -/
inductive LoopRes
  | finished (added : Nat) (acts : List Action) (remaining : List Item)
  | raised (msg : Exn) (acts : List Action)
  | exited (acts : List Action)
deriving DecidableEq

/-- Prefix the trace of a loop result. -/
def prependActs (pre : List Action) : LoopRes → LoopRes
  | LoopRes.finished a acts rem => LoopRes.finished a (pre ++ acts) rem
  | LoopRes.raised m acts => LoopRes.raised m (pre ++ acts)
  | LoopRes.exited acts => LoopRes.exited (pre ++ acts)

/-- Shallow embedding of the per item loop (core/business_logic.py lines 567
to 703). The display variable extraction runs outside the try block, so its
exceptions abort the loop; exceptions from the try block are caught, logged
with the item identity, and the loop continues with the next item; the add
limit break stops the loop leaving the unvisited suffix. -/
def processLoop (p : Params) : List Item → Nat → LoopRes
  | [], added => LoopRes.finished added [] []
  | it :: rest, added =>
    match extractDisplay it.env with
    | .error m => LoopRes.raised m []
    | .ok disp =>
      match tryBody p it disp added with
      | (acts, TryResult.exn _) =>
        prependActs (acts ++ [Action.logExn disp.title]) (processLoop p rest added)
      | (acts, TryResult.exited) => LoopRes.exited acts
      | (acts, TryResult.ok a brk) =>
        if brk then LoopRes.finished a acts rest
        else prependActs acts (processLoop p rest a)

/-- Number of inventory submissions (add_series or add_movie calls) in a
trace. -/
def countSubmit : List Action → Nat
  | [] => 0
  | Action.submit _ :: rest => countSubmit rest + 1
  | _ :: rest => countSubmit rest

/-- Trace of a loop result. -/
def loopActs : LoopRes → List Action
  | LoopRes.finished _ acts _ => acts
  | LoopRes.raised _ acts => acts
  | LoopRes.exited acts => acts

/-- The per media kind filter settings of the configuration that the pipeline
reads or writes (misc/config.py base_config, filters section). -/
structure MediaFilters where
  blacklisted_genres : List String
  allowed_countries : List String
  allowed_languages : List String
  blacklisted_min_year : Option Int
  blacklisted_max_year : Option Int
  blacklisted_min_runtime : Option Int
  blacklisted_max_runtime : Option Int
deriving DecidableEq

/-- The slice of the process wide configuration singleton that the media
processing pipeline reads or mutates. -/
structure Cfg where
  showsFilters : MediaFilters
  moviesFilters : MediaFilters
  sonarrRootFolder : String
  radarrRootFolder : String
  radarrMinimumAvailability : String
  /-- truthiness of cfg.omdb.api_key. -/
  omdbApiKey : Bool
  /-- cfg.sonarr.tags (None or a list). -/
  sonarrTags : Option (List String)
  /-- cfg.notifications.verbose. -/
  notificationsVerbose : Bool
deriving DecidableEq

/-- Filter settings of the selected media kind. -/
def mediaFilters : MediaType → Cfg → MediaFilters
  | MediaType.shows, c => c.showsFilters
  | MediaType.movies, c => c.moviesFilters

/-- Overwrite the blacklisted genres of the selected media kind. -/
def setBlacklistedGenres (mt : MediaType) (gs : List String) (c : Cfg) : Cfg :=
  match mt with
  | MediaType.shows => { c with showsFilters := { c.showsFilters with blacklisted_genres := gs } }
  | MediaType.movies => { c with moviesFilters := { c.moviesFilters with blacklisted_genres := gs } }

/-- Overwrite the blacklisted year window of the selected media kind. -/
def setYearBounds (mt : MediaType) (lo hi : Option Int) (c : Cfg) : Cfg :=
  match mt with
  | MediaType.shows =>
    { c with showsFilters :=
        { c.showsFilters with blacklisted_min_year := lo, blacklisted_max_year := hi } }
  | MediaType.movies =>
    { c with moviesFilters :=
        { c.moviesFilters with blacklisted_min_year := lo, blacklisted_max_year := hi } }

/-- Overwrite the root folder of the inventory target of the selected media
kind. -/
def setRootFolder (mt : MediaType) (f : String) (c : Cfg) : Cfg :=
  match mt with
  | MediaType.shows => { c with sonarrRootFolder := f }
  | MediaType.movies => { c with radarrRootFolder := f }

/-- Worker for splitComma: the first argument is the remaining input, the
second the reversed current piece. -/
def splitCommaGo : List Char → List Char → List String
  | [], acc => [String.mk acc.reverse]
  | c :: rest, acc =>
    if c = ',' then String.mk acc.reverse :: splitCommaGo rest []
    else splitCommaGo rest (c :: acc)

/-- Python str.split with a comma separator, modelled structurally over the
character list so that it evaluates inside the kernel: split at every comma,
keeping empty pieces. -/
def splitComma (s : String) : List String :=
  splitCommaGo s.toList []

/-- Shallow embedding of the genres argument processing of the pipeline
(core/business_logic.py lines 409 to 423). A falsy (absent or empty) argument
leaves everything unchanged. Otherwise the comma separated list is split; if
the special keyword ignore is present, the blacklisted genres of the selected
media kind on the process wide configuration are overwritten with the ignore
sentinel and the genre search parameter becomes None; otherwise the requested
genres are removed from the blacklisted genres list (helpers/misc.py
unblacklist_genres is not under src and is modelled from its call site
comment: remove the genre from the blacklisted genres list if it is there).
The Python code also sorts the split list case insensitively, an ordering that
nothing downstream in this model depends on and that is not modelled. -/
def processGenresArg (mt : MediaType) (genresArg : Option String) (c : Cfg) :
    Option (List String) × Cfg :=
  match genresArg with
  | none => (none, c)
  | some s =>
    if s = "" then (none, c)
    else
      let gs := splitComma s
      if "ignore" ∈ gs then
        (none, setBlacklistedGenres mt ["ignore"] c)
      else
        (some gs,
         setBlacklistedGenres mt
           ((mediaFilters mt c).blacklisted_genres.filter (fun g => g ∉ gs)) c)

/-- Shallow embedding of the allowed countries and languages processing
(core/business_logic.py lines 397 to 407): a falsy list or one containing the
keyword ignore disables the restriction. -/
def processAllowed (l : List String) : Option (List String) :=
  if l = [] ∨ "ignore" ∈ l then none else some l

/-- Arguments of one pipeline invocation that the model distinguishes. -/
structure ProcessArgs where
  mediaType : MediaType
  listType : String
  addLimit : Nat
  dryRun : Bool
  notifications : Bool
  genresArg : Option String
  folder : Option String
  minimumAvailability : Option String
  rottenTomatoes : Option Int
deriving DecidableEq

/-- Results of the external calls of one pipeline invocation outside the per
item loop. The reconciliation helpers (helpers/sonarr.py and
helpers/radarr.py) and the sort helper (helpers/misc.py) are not under src,
so their results arrive through this environment; the year window helper
(helpers/parameter.py) likewise. -/
structure PipelineEnv where
  /-- trakt.validate_client_id. -/
  traktValid : Bool
  /-- pvr.validate_api_key. -/
  pvrValid : Bool
  /-- pvr.get_quality_profile_id. -/
  qualityProfileId : Option Int
  /-- number of items returned by pvr.get_objects (zero is falsy). -/
  pvrObjectCount : Nat
  /-- number of items returned by pvr.get_exclusions (movies only). -/
  exclusionCount : Nat
  /-- the Trakt list, or None on a failed retrieval. -/
  traktList : Option (List Item)
  /-- result of remove_existing_series_from_trakt_list (shows). -/
  reconcileShows : Option (List Item)
  /-- result of remove_existing_and_excluded_movies_from_trakt_list:
  a list (or None) together with the success flag. -/
  reconcileMovies : Option (List Item) × Bool
  /-- misc_helper.sorted_list with the selected sort key. -/
  sortFn : List Item → List Item
  /-- parameter_helper.years result: the search parameter and the new year
  window written back to the configuration. -/
  yearsParam : Option String × Option Int × Option Int
  /-- for shows, whether the tmdb helper exposes check_show_tmdb_id
  (the hasattr check in the pipeline). -/
  showValidateFuncPresent : Bool

/-- Overall outcome of one pipeline invocation: a process exit, the return
None abort, a normal return of the added count, or an uncaught exception. -/
inductive PipeResult
  | exited
  | abortedNone
  | finished (added : Nat)
  | raised (msg : Exn)
deriving DecidableEq

/-- The per item loop followed by the final report of the pipeline
(core/business_logic.py lines 567 to 710): the loop, the added count log
line, and the optional summary notification (sent when notifications are on
and either verbose notifications are configured or something was added). -/
def loopAndReport (p : Params) (items : List Item)
    (notifications verbose : Bool) (cfg : Cfg) :
    PipeResult × List Action × Cfg :=
  match processLoop p items 0 with
  | LoopRes.raised m acts => (PipeResult.raised m, acts, cfg)
  | LoopRes.exited acts => (PipeResult.exited, acts, cfg)
  | LoopRes.finished n acts _ =>
    (PipeResult.finished n,
     acts ++ [Action.logInfo "Added summary"] ++
       (if notifications ∧ (verbose ∨ 0 < n) then [Action.notifySummary n] else []),
     cfg)

/-- The configuration mutations of the argument processing phase of the
pipeline (core/business_logic.py lines 409 to 465): the genre sentinel write,
the year window write, the optional root folder override and, for movies, the
optional minimum availability override. Every branch of the pipeline leaves
the process wide singleton in this state. -/
def pmCfg (a : ProcessArgs) (env : PipelineEnv) (cfg0 : Cfg) : Cfg :=
  let cfg1 := (processGenresArg a.mediaType a.genresArg cfg0).2
  let cfg2 := setYearBounds a.mediaType env.yearsParam.2.1 env.yearsParam.2.2 cfg1
  let cfg3 := match a.folder with
    | some f => setRootFolder a.mediaType f cfg2
    | none => cfg2
  if a.mediaType = MediaType.movies then
    match a.minimumAvailability with
    | some m => { cfg3 with radarrMinimumAvailability := m }
    | none => cfg3
  else cfg3

/-- Shallow embedding of validate_pvr (core/business_logic.py lines 74 to
84): on a failed credential check it logs an error, optionally sends an error
notification, and returns None; on success it logs and returns None
implicitly. Unlike validate_trakt it never exits, and the pipeline discards
its result. -/
def validate_pvr (valid : Bool) (notifications : Bool) :
    List Action × Option Unit :=
  if !valid then
    ([Action.callValidatePvr,
      Action.logError "Aborting due to failure to validate PVR URL / API Key"] ++
     (if notifications then
        [Action.notifyError "Failure to validate PVR URL / API Key"] else []),
     none)
  else
    ([Action.callValidatePvr, Action.logInfo "Validated PVR URL and API Key"],
     some ())

/-- Shallow embedding of the media processing pipeline _process_media
(core/business_logic.py lines 307 to 710): argument and configuration
processing, credential validation, quality profile and inventory lookups,
Trakt list retrieval, reconciliation, sort, the per item loop, and the final
report. The returned configuration is the final state of the process wide
singleton, whatever the outcome. -/
def process_media (a : ProcessArgs) (env : PipelineEnv) (cfg0 : Cfg) :
    PipeResult × List Action × Cfg :=
  let filters0 := mediaFilters a.mediaType cfg0
  let _countries := processAllowed filters0.allowed_countries
  let _languages := processAllowed filters0.allowed_languages
  let genresList := (processGenresArg a.mediaType a.genresArg cfg0).1
  let cfg := pmCfg a env cfg0
  -- validate_trakt: exits the process on failure
  if !env.traktValid then
    (PipeResult.exited,
     [Action.callValidateTrakt,
      Action.logError "Aborting due to failure to validate Trakt API Key"] ++
     (if a.notifications then [Action.notifyError "Failure to validate Trakt API Key"] else []),
     cfg)
  else
    let pre1 := [Action.callValidateTrakt]
    -- validate_pvr logs (and optionally notifies) on failure but only returns
    -- None, and the pipeline ignores that result and continues
    let pre2 := pre1 ++ (validate_pvr env.pvrValid a.notifications).1
    -- get_quality_profile_id exits on a falsy or non positive id
    match env.qualityProfileId with
    | none =>
      (PipeResult.exited,
       pre2 ++ [Action.callGetQualityProfile,
                Action.logError "Aborting due to failure to retrieve Quality Profile ID"],
       cfg)
    | some q =>
      if q ≤ 0 then
        (PipeResult.exited,
         pre2 ++ [Action.callGetQualityProfile,
                  Action.logError "Aborting due to failure to retrieve Quality Profile ID"],
         cfg)
      else
        let pre3 := pre2 ++ [Action.callGetQualityProfile]
        -- get_objects exits on a falsy inventory listing
        if env.pvrObjectCount = 0 then
          (PipeResult.exited,
           pre3 ++ [Action.callGetObjects,
                    Action.logError "Aborting due to failure to retrieve inventory list"] ++
           (if a.notifications then [Action.notifyError "Failure to retrieve inventory list"] else []),
           cfg)
        else
          let pre4 := pre3 ++ [Action.callGetObjects] ++
            (if a.mediaType = MediaType.movies then [Action.callGetExclusions] else [])
          -- Trakt list retrieval: a falsy result aborts with return None
          let traktL : List Item := (env.traktList.getD [])
          if env.traktList = none ∨ traktL = [] then
            (PipeResult.abortedNone,
             pre4 ++ [Action.callGetTraktList,
                      Action.logError "Aborting due to failure to retrieve Trakt list"] ++
             (if a.notifications then [Action.notifyAbort "Failure to retrieve Trakt list"] else []),
             cfg)
          else
            let pre5 := pre4 ++ [Action.callGetTraktList]
            -- reconciliation: for shows the success flag is derived from the
            -- result being non None, for movies the helper returns the pair
            let recon : Option (List Item) × Bool :=
              match a.mediaType with
              | MediaType.shows => (env.reconcileShows, env.reconcileShows.isSome)
              | MediaType.movies => env.reconcileMovies
            match recon with
            | (none, flag) =>
              if !flag then
                (PipeResult.abortedNone,
                 pre5 ++ [Action.callReconcile,
                          Action.logError "Aborting due to failure to remove existing items from the Trakt list"] ++
                 (if a.notifications then [Action.notifyAbort "Failure to remove existing items from the Trakt list"] else []),
                 cfg)
              else
                (PipeResult.abortedNone,
                 pre5 ++ [Action.callReconcile,
                          Action.logInfo "No more items left to process in the list"],
                 cfg)
            | (some processed, _) =>
              let sortedL := env.sortFn processed
              let pre6 := pre5 ++ [Action.callReconcile] ++
                (if a.mediaType = MediaType.movies ∧ a.rottenTomatoes.isSome then
                   [Action.logInfo "Minimum Rotten Tomatoes score requested"] else [])
              let p : Params :=
                { mediaType := a.mediaType
                  addLimit := a.addLimit
                  dryRun := a.dryRun
                  notifications := a.notifications
                  hasValidateFunc :=
                    match a.mediaType with
                    | MediaType.movies => true
                    | MediaType.shows => env.showValidateFuncPresent
                  genreFilterActive := genresList.elim false (fun l => !l.isEmpty)
                  rottenTomatoes := a.rottenTomatoes
                  omdbKeySet := cfg.omdbApiKey
                  sonarrTagsSet := cfg.sonarrTags.isSome }
              let final := loopAndReport p sortedL a.notifications
                cfg.notificationsVerbose cfg
              (final.1, pre6 ++ final.2.1, final.2.2)

/-- Modelled from the spec: helpers/sonarr.py
(remove_existing_series_from_trakt_list) is not under src. Per the spec the
show variant of the reconciliation resolver returns None only on adapter
failure, and otherwise the source list with every envelope whose primary id
matches an existing inventory item removed; an empty non None collection when
everything was filtered. -/
def remove_existing_series_from_trakt_list (adapterOk : Bool)
    (existingIds : List Int) (lst : List Item) : Option (List Item) :=
  if adapterOk then
    some (lst.filter (fun it =>
      match it.env.tvdb with
      | .ok (some i) => decide (i ∉ existingIds)
      | _ => true))
  else none

/-- Configured automatic intervals per media kind and list category, in hours;
an absent entry is None (misc/config.py automatic section). -/
structure AutoIntervals where
  moviesPublic : Option Nat
  moviesUser : Option Nat
  showsPublic : Option Nat
  showsUser : Option Nat
deriving DecidableEq

/-- Shallow embedding of get_interval inside run_automatic_mode
(core/business_logic.py lines 1279 to 1285): the configured interval, or zero
when none is configured. -/
def get_interval (iv : Option Nat) : Nat := iv.getD 0

/-- A recurring task as created by the scheduler: its tag, its interval and
its next due time in seconds. -/
structure SchedTask where
  tag : String
  intervalHours : Nat
  nextRun : Nat
deriving DecidableEq

/-- Events of the scheduler startup phase. -/
inductive StartEvent
  | scheduledLog (tag : String)
  | ranImmediately (tag : String)
  | sleptDelay
  | warnedNoTasks
  | loggedCount (n : Nat)
deriving DecidableEq

/-- Modelled from the spec: the external schedule library is not under src.
Per the spec a recurring task created with an interval of some hours has its
next due time that many hours ahead, and running a task recomputes its next
due time its own interval ahead; time is held at the single instant now
during startup. -/
def scheduleEveryHours (now interval : Nat) (tag : String) : SchedTask :=
  { tag := tag, intervalHours := interval, nextRun := now + interval * 3600 }

/-- Shallow embedding of schedule_task inside run_automatic_mode
(core/business_logic.py lines 1288 to 1309): a task is created only for a
strictly positive interval; with run_now the task is executed once
synchronously and the configured delay is slept afterwards. -/
def schedule_task (runNow : Bool) (now : Nat) (tag : String) (interval : Nat)
    (acc : List SchedTask × List StartEvent) : List SchedTask × List StartEvent :=
  if 0 < interval then
    (acc.1 ++ [scheduleEveryHours now interval tag],
     acc.2 ++ [StartEvent.scheduledLog tag] ++
       (if runNow then [StartEvent.ranImmediately tag, StartEvent.sleptDelay] else []))
  else acc

/-- Shallow embedding of the startup phase of run_automatic_mode
(core/business_logic.py lines 1276 to 1327): one schedule_task call per media
kind and list category in source order, then the warning when no task was
created or the count log otherwise. -/
def runAutomaticStart (iv : AutoIntervals) (runNow : Bool) (now : Nat) :
    List SchedTask × List StartEvent :=
  let s1 := schedule_task runNow now "movies public lists"
    (get_interval iv.moviesPublic) ([], [])
  let s2 := schedule_task runNow now "movies user lists"
    (get_interval iv.moviesUser) s1
  let s3 := schedule_task runNow now "shows public lists"
    (get_interval iv.showsPublic) s2
  let s4 := schedule_task runNow now "shows user lists"
    (get_interval iv.showsUser) s3
  (s4.1,
   s4.2 ++ (if s4.1 = [] then [StartEvent.warnedNoTasks]
            else [StartEvent.loggedCount s4.1.length]))

/-- The four media kind and list category combinations with their configured
intervals, in source order. -/
def comboIntervals (iv : AutoIntervals) : List (String × Nat) :=
  [("movies public lists", get_interval iv.moviesPublic),
   ("movies user lists", get_interval iv.moviesUser),
   ("shows public lists", get_interval iv.showsPublic),
   ("shows user lists", get_interval iv.showsUser)]

/-- The task list stated by the spec: one task per combination with a strictly
positive interval, due one interval ahead. -/
def expectedTasks (iv : AutoIntervals) (now : Nat) : List SchedTask :=
  (comboIntervals iv).filterMap (fun c =>
    if 0 < c.2 then some (scheduleEveryHours now c.2 c.1) else none)

/-- Results of the external calls of one iteration of the steady loop. -/
structure IterEnv where
  /-- whether the periodic status line is due this iteration. -/
  statusDue : Bool
  /-- schedule.idle_seconds result: None when no job is scheduled; the call
  itself may raise. -/
  idleCall : Except Exn (Option Int)
  /-- schedule.run_pending: an exception escaping a task execution arrives
  here. -/
  runPending : Except Exn Unit

/-- Observable effects of one iteration of the steady loop. -/
inductive IterAction
  | loggedStatus
  | sleptIdle (secs : Int)
  | sleptOne
  | ranPending
  | loggedException
deriving DecidableEq

/-- The comparison idle_seconds greater than zero of the steady loop: a None
value raises a TypeError when compared against an integer. -/
def compareIdle : Option Int → Except Exn Bool
  | some n => .ok (decide (0 < n))
  | none => .error "TypeError: NoneType comparison"

/-- Shallow embedding of the try block of one iteration of the steady loop of
run_automatic_mode (core/business_logic.py lines 1334 to 1363): the periodic
status line, the idle wait (a minimal one second pause when there is no
positive idle time), then run_pending. -/
def steadyTry (env : IterEnv) : List IterAction × Except Exn Unit :=
  let statusActs := if env.statusDue then [IterAction.loggedStatus] else []
  match env.idleCall with
  | .error m => (statusActs, .error m)
  | .ok idleOpt =>
    match compareIdle idleOpt with
    | .error m => (statusActs, .error m)
    | .ok true =>
      match env.runPending with
      | .error m =>
        (statusActs ++ [IterAction.sleptIdle (idleOpt.getD 0), IterAction.ranPending], .error m)
      | .ok _ =>
        (statusActs ++ [IterAction.sleptIdle (idleOpt.getD 0), IterAction.ranPending], .ok ())
    | .ok false =>
      match env.runPending with
      | .error m => (statusActs ++ [IterAction.sleptOne, IterAction.ranPending], .error m)
      | .ok _ => (statusActs ++ [IterAction.sleptOne, IterAction.ranPending], .ok ())

/-- Shallow embedding of one full iteration of the while True loop of
run_automatic_mode (core/business_logic.py lines 1333 to 1367): the except
branch catches any exception from the try block, logs it and sleeps one
second; the loop body has no exit path. -/
def steadyIteration (env : IterEnv) : List IterAction :=
  match steadyTry env with
  | (acts, .ok _) => acts
  | (acts, .error _) => acts ++ [IterAction.loggedException, IterAction.sleptOne]

/-- Fuel indexed runner of the steady loop: one environment per iteration;
the trace of every iteration is collected. -/
def steadyLoop : List IterEnv → List (List IterAction)
  | [] => []
  | e :: rest => steadyIteration e :: steadyLoop rest

/-- Shallow embedding of run_automatic_mode (core/business_logic.py lines
1259 to 1367): the startup phase followed by the steady loop, which is
entered whether or not any task was created. -/
def run_automatic_mode (iv : AutoIntervals) (runNow : Bool) (now : Nat)
    (envs : List IterEnv) :
    (List SchedTask × List StartEvent) × List (List IterAction) :=
  (runAutomaticStart iv runNow now, steadyLoop envs)

/-- Arguments of the Config constructor (misc/config.py line 117). -/
structure ConfigArgs where
  configfile : Option String
  cachefile : Option String
  logfile : Option String
deriving DecidableEq

/-- The loaded configuration value held by the cfg property: either the built
in base configuration or a value parsed from the configuration file,
abstracted by an index. -/
inductive ConfValue
  | base
  | fromFile (raw : Nat)
deriving DecidableEq

/-- One Config instance: the three resolved paths and the cached loaded
configuration (misc/config.py lines 117 to 123). -/
structure ConfigInst where
  config_path : String
  cache_path : String
  log_path : String
  conf : Option ConfValue
deriving DecidableEq

/-- The Config initializer (misc/config.py lines 117 to 123): resolve the
three paths with their defaults; no configuration is loaded yet. -/
def Config_mk (a : ConfigArgs) : ConfigInst :=
  { config_path := a.configfile.getD "/tmp/test_config.json"
    cache_path := a.cachefile.getD "/tmp/test_cache.db"
    log_path := a.logfile.getD "/tmp/test_activity.log"
    conf := none }

/-- Shallow embedding of the Singleton metaclass call (misc/config.py lines 8
to 15) specialised to the single Config class: the class to instance mapping
is an optional stored instance; a call returns the stored instance when
present, otherwise constructs one from the arguments and stores it. -/
def singletonCall (st : Option ConfigInst) (a : ConfigArgs) :
    ConfigInst × Option ConfigInst :=
  match st with
  | some inst => (inst, some inst)
  | none => (Config_mk a, some (Config_mk a))

/-- File system and loader behaviour consumed by the cfg property. -/
structure CfgFileEnv where
  /-- os.path.exists on the configuration path. -/
  configExists : Bool
  /-- the parsed configuration together with the upgrade flag, as produced by
  load_config followed by upgrade_settings. -/
  upgradeResult : ConfValue × Bool
deriving DecidableEq

/-- Outcome of one access to the cfg property: the configuration value, or a
process exit (sys.exit after dumping an upgraded configuration). -/
inductive CfgGetResult
  | value (v : ConfValue)
  | exitedProcess
deriving DecidableEq

/-- Shallow embedding of the cfg property (misc/config.py lines 125 to 151):
a cached value is returned as is; a missing configuration file yields the
base configuration, which is cached; otherwise the file is loaded and
upgraded, the process exits when the upgrade added settings, and the loaded
value is cached and returned otherwise. -/
def cfgGet (env : CfgFileEnv) (c : ConfigInst) : CfgGetResult × ConfigInst :=
  match c.conf with
  | some v => (CfgGetResult.value v, c)
  | none =>
    if !env.configExists then
      (CfgGetResult.value ConfValue.base, { c with conf := some ConfValue.base })
    else
      match env.upgradeResult with
      | (v, true) => (CfgGetResult.exitedProcess, { c with conf := some v })
      | (v, false) => (CfgGetResult.value v, { c with conf := some v })

/-- Whether a read or call succeeded. -/
def isOkB {α : Type} : FieldRead α → Bool
  | .ok _ => true
  | .error _ => false

/-- Value of a boolean call, defaulting to false on an exception. -/
def exVal : FieldRead Bool → Bool
  | .ok b => b
  | .error _ => false

/-- An item is eligible when it reaches the adding branch of the loop body:
it passes the external catalog validation, the genre inclusion filter, the
blacklist and the rating gate. -/
def eligible (p : Params) (it : Item) : Bool :=
  (!p.hasValidateFunc || exVal it.oracle.validateFunc) &&
  (!p.genreFilterActive || exVal it.oracle.allowedGenres) &&
  (!(exVal it.oracle.isBlacklisted)) &&
  (!(rtGateActive p) || exVal it.oracle.rtOk)

/-- Whether the tag listing call returned an available (non None) listing. -/
def tagsAvailable : FieldRead (Option (List (String × Nat))) → Bool
  | .ok (some _) => true
  | _ => false

/-- An item is clean when none of its dictionary reads or external calls
raises, its tag listing (if consulted) is available, and its submission call
reports success. -/
def itemClean (it : Item) : Prop :=
  isOkB it.env.title = true ∧ isOkB it.env.tmdb = true ∧
  isOkB it.env.imdb = true ∧ isOkB it.env.tvdb = true ∧
  isOkB it.env.slug = true ∧ isOkB it.env.year = true ∧
  isOkB it.env.genres = true ∧
  isOkB it.oracle.validateFunc = true ∧ isOkB it.oracle.allowedGenres = true ∧
  isOkB it.oracle.isBlacklisted = true ∧ isOkB it.oracle.rtOk = true ∧
  isOkB it.oracle.langProfileId = true ∧
  tagsAvailable it.oracle.tagsCall = true ∧
  it.oracle.addResult = Except.ok true

instance (it : Item) : Decidable (itemClean it) := by
  unfold itemClean
  infer_instance

/-- A well formed test envelope. -/
def envelopeA : Envelope :=
  { title := .ok "Alpha", tmdb := .ok (some 603), imdb := .ok (some "tt1")
    tvdb := .ok (some 267440), slug := .ok (some "alpha")
    year := .ok (some 1999), genres := .ok ["action"]
    country := some "us", language := some "en" }

/-- A second well formed test envelope. -/
def envelopeB : Envelope :=
  { envelopeA with title := .ok "Beta", tmdb := .ok (some 604)
                   tvdb := .ok (some 7), slug := .ok (some "beta") }

/-- An oracle where every call succeeds and nothing is filtered. -/
def oracleOk : ItemOracle :=
  { validateFunc := .ok true, allowedGenres := .ok true
    isBlacklisted := .ok false, rtOk := .ok true, langProfileId := .ok 1
    tagsCall := .ok (some [("anime", 10)]), addResult := .ok true }

/-- A clean, eligible test item. -/
def itemA : Item := { env := envelopeA, oracle := oracleOk }

/-- A clean, eligible second test item. -/
def itemB : Item := { env := envelopeB, oracle := oracleOk }

/-- A test item that the blacklist rejects. -/
def itemBlacklisted : Item :=
  { env := envelopeB, oracle := { oracleOk with isBlacklisted := .ok true } }

/-- A test item whose title read raises outside the try block. -/
def itemBadTitle : Item :=
  { env := { envelopeA with title := .error "KeyError: title" }, oracle := oracleOk }

/-- A test item whose blacklist evaluation raises inside the try block. -/
def itemRaising : Item :=
  { env := envelopeA
    oracle := { oracleOk with isBlacklisted := .error "ValueError" } }

/-- Test filter settings. -/
def filtersA : MediaFilters :=
  { blacklisted_genres := ["comedy"], allowed_countries := []
    allowed_languages := [], blacklisted_min_year := some 2000
    blacklisted_max_year := some 2019, blacklisted_min_runtime := some 60
    blacklisted_max_runtime := some 0 }

/-- A test configuration. -/
def cfgA : Cfg :=
  { showsFilters := filtersA, moviesFilters := filtersA
    sonarrRootFolder := "/tv/", radarrRootFolder := "/movies/"
    radarrMinimumAvailability := "released", omdbApiKey := false
    sonarrTags := none, notificationsVerbose := true }

/-- A test pipeline environment where every external call succeeds. -/
def pipeEnvA (items : List Item) (rshows : Option (List Item)) : PipelineEnv :=
  { traktValid := true, pvrValid := true, qualityProfileId := some 5
    pvrObjectCount := 1, exclusionCount := 0, traktList := some items
    reconcileShows := rshows, reconcileMovies := (some items, true)
    sortFn := id, yearsParam := (none, some 2000, some 2019)
    showValidateFuncPresent := false }

/-- Test arguments for a show pipeline invocation. -/
def argsShows : ProcessArgs :=
  { mediaType := MediaType.shows, listType := "trending", addLimit := 0
    dryRun := false, notifications := false, genresArg := none
    folder := none, minimumAvailability := none, rottenTomatoes := none }

/-- Test arguments passing the ignore genre keyword. -/
def argsIgnore : ProcessArgs := { argsShows with genresArg := some "ignore" }

/-- Test loop parameters for shows without optional gates. -/
def paramsShows : Params :=
  { mediaType := MediaType.shows, addLimit := 0, dryRun := false
    notifications := false, hasValidateFunc := false
    genreFilterActive := false, rottenTomatoes := none
    omdbKeySet := false, sonarrTagsSet := false }

/-!
Helper lemmas shared by the claim theorems.
-/

theorem countSubmit_append (l1 l2 : List Action) :
    countSubmit (l1 ++ l2) = countSubmit l1 + countSubmit l2 := by
  induction l1 with
  | nil => simp [countSubmit]
  | cons a rest ih => cases a <;> simp [countSubmit, ih] <;> omega

theorem loopActs_prependActs (pre : List Action) (r : LoopRes) :
    loopActs (prependActs pre r) = pre ++ loopActs r := by
  cases r <;> rfl

theorem isOkB_iff {α : Type} (r : FieldRead α) : isOkB r = true ↔ ∃ a, r = .ok a := by
  cases r <;> simp [isOkB]

/-!
Claim C10: the configuration object is a process wide singleton, and the cfg
property caches its value.
-/

/-- C10: the configuration object is a process wide singleton: a second
Config construction returns the same instance as the first regardless of its
arguments, and once an access to the cfg property has produced a value, every
later access returns that same cached value without touching the file system
again, so all operations in the process share one configuration state. -/
theorem c10_config_singleton (st : Option ConfigInst) (a1 a2 : ConfigArgs)
    (env1 env2 : CfgFileEnv) :
    ((singletonCall (singletonCall st a1).2 a2).1 = (singletonCall st a1).1)
    ∧ (∀ c v c2, cfgGet env1 c = (CfgGetResult.value v, c2) →
         cfgGet env2 c2 = (CfgGetResult.value v, c2)) := by
  constructor
  · cases st <;> simp [singletonCall]
  · intro c v c2 h
    rcases hc : c.conf with _ | w
    · by_cases he : env1.configExists
      · rcases hu : env1.upgradeResult with ⟨uv, fl⟩
        cases fl
        · simp [cfgGet, hc, he, hu] at h
          rcases h with ⟨h1, h2⟩
          subst h1
          simp [← h2, cfgGet]
        · simp [cfgGet, hc, he, hu] at h
      · simp [cfgGet, hc, he] at h
        rcases h with ⟨h1, h2⟩
        subst h1
        simp [← h2, cfgGet]
    · simp [cfgGet, hc] at h
      rcases h with ⟨h1, h2⟩
      subst h1
      simp [← h2, cfgGet, hc]

/-- Witness for C10 at concrete inputs: a cfg access on a fresh instance with
no configuration file yields the base configuration, and a second access on
the resulting instance (under a different file system environment) returns
the same cached value. -/
theorem c10_config_singleton_witness :
    cfgGet ⟨true, (ConfValue.fromFile 7, true)⟩
        { Config_mk ⟨none, none, none⟩ with conf := some ConfValue.base } =
      (CfgGetResult.value ConfValue.base,
       { Config_mk ⟨none, none, none⟩ with conf := some ConfValue.base }) := by
  exact (c10_config_singleton none ⟨none, none, none⟩ ⟨some "x", none, none⟩
      ⟨false, (ConfValue.base, false)⟩ ⟨true, (ConfValue.fromFile 7, true)⟩).2
    (Config_mk ⟨none, none, none⟩) ConfValue.base
    { Config_mk ⟨none, none, none⟩ with conf := some ConfValue.base } (by decide)

/-!
Claim C8: scheduler startup.
-/

/-- C8: at scheduler start exactly one recurring task is created for each of
the four media kind and list category combinations whose configured interval
is strictly positive (none for a zero or absent interval), each task due one
interval ahead (48 hours for a 48 hour interval); when immediate run is
requested every created task executes once synchronously before the steady
loop begins, with the configured delay slept after each immediate run. -/
theorem c8_scheduler_start (iv : AutoIntervals) (now : Nat) :
    (∀ rn, (runAutomaticStart iv rn now).1 = expectedTasks iv now)
    ∧ (∀ t ∈ expectedTasks iv now, t.nextRun = now + t.intervalHours * 3600)
    ∧ ((runAutomaticStart iv true now).2 =
        ((expectedTasks iv now).flatMap (fun t =>
           [StartEvent.scheduledLog t.tag, StartEvent.ranImmediately t.tag,
            StartEvent.sleptDelay])) ++
        (if expectedTasks iv now = [] then [StartEvent.warnedNoTasks]
         else [StartEvent.loggedCount (expectedTasks iv now).length])) := by
  have tasksEq : ∀ rn, (runAutomaticStart iv rn now).1 = expectedTasks iv now := by
    intro rn
    unfold runAutomaticStart expectedTasks comboIntervals schedule_task
    by_cases h1 : 0 < get_interval iv.moviesPublic <;>
      by_cases h2 : 0 < get_interval iv.moviesUser <;>
      by_cases h3 : 0 < get_interval iv.showsPublic <;>
      by_cases h4 : 0 < get_interval iv.showsUser <;>
      simp [h1, h2, h3, h4]
  refine ⟨tasksEq, ?_, ?_⟩
  · intro t ht
    simp only [expectedTasks, List.mem_filterMap] at ht
    rcases ht with ⟨c, _, hc⟩
    by_cases hp : 0 < c.2
    · simp only [hp, if_true] at hc
      cases hc
      rfl
    · simp [hp] at hc
  · unfold runAutomaticStart expectedTasks comboIntervals schedule_task
    by_cases h1 : 0 < get_interval iv.moviesPublic <;>
      by_cases h2 : 0 < get_interval iv.moviesUser <;>
      by_cases h3 : 0 < get_interval iv.showsPublic <;>
      by_cases h4 : 0 < get_interval iv.showsUser <;>
      simp [h1, h2, h3, h4, scheduleEveryHours]

/-- Witness for C8 at concrete inputs: with only the shows public lists
interval set to 48 hours and immediate run requested, exactly one task is
created, it runs once immediately with the delay slept, and its next due time
is 48 hours ahead. -/
theorem c8_scheduler_start_witness :
    (runAutomaticStart ⟨none, none, some 48, none⟩ true 0).1 =
      [{ tag := "shows public lists", intervalHours := 48, nextRun := 172800 }]
    ∧ (runAutomaticStart ⟨none, none, some 48, none⟩ true 0).2 =
      [StartEvent.scheduledLog "shows public lists",
       StartEvent.ranImmediately "shows public lists", StartEvent.sleptDelay,
       StartEvent.loggedCount 1] := by
  have h := c8_scheduler_start ⟨none, none, some 48, none⟩ 0
  constructor
  · rw [h.1 true]
    decide
  · rw [h.2.2]
    decide

/-!
Claim C9: the steady loop never terminates on its own.
-/

/-- C9: the steady loop of run_automatic_mode never terminates on its own:
it runs one iteration for every supplied iteration environment (also when no
task was created, in which case startup logs a warning and the loop is still
entered), and any exception escaping the try block of an iteration is caught
at the loop level, logged, and followed by a one second recovery sleep after
which the loop continues. -/
theorem c9_steady_loop (iv : AutoIntervals) (rn : Bool) (now : Nat)
    (envs : List IterEnv) :
    ((run_automatic_mode iv rn now envs).2.length = envs.length)
    ∧ (∀ e acts m, steadyTry e = (acts, Except.error m) →
         steadyIteration e = acts ++ [IterAction.loggedException, IterAction.sleptOne])
    ∧ ((runAutomaticStart iv rn now).1 = [] →
         StartEvent.warnedNoTasks ∈ (run_automatic_mode iv rn now envs).1.2) := by
  refine ⟨?_, ?_, ?_⟩
  · show (steadyLoop envs).length = envs.length
    induction envs with
    | nil => rfl
    | cons e rest ih => simp [steadyLoop, ih]
  · intro e acts m h
    simp [steadyIteration, h]
  · intro h
    show StartEvent.warnedNoTasks ∈ (runAutomaticStart iv rn now).2
    simp only [runAutomaticStart] at h ⊢
    simp [h]

/-- Witness for C9 at concrete inputs: with no configured intervals the
startup warns and the loop still runs its iterations; an iteration whose idle
computation raises (idle_seconds is None when no job exists) logs the
exception and sleeps one second. -/
theorem c9_steady_loop_witness :
    (run_automatic_mode ⟨none, none, none, none⟩ false 0
        [⟨false, Except.ok none, Except.ok ()⟩]).2.length = 1
    ∧ steadyIteration ⟨false, Except.ok none, Except.ok ()⟩ =
        [IterAction.loggedException, IterAction.sleptOne]
    ∧ StartEvent.warnedNoTasks ∈
        (run_automatic_mode ⟨none, none, none, none⟩ false 0
          [⟨false, Except.ok none, Except.ok ()⟩]).1.2 := by
  have h := c9_steady_loop ⟨none, none, none, none⟩ false 0
    [⟨false, Except.ok none, Except.ok ()⟩]
  refine ⟨h.1, ?_, h.2.2 (by decide)⟩
  have h2 := h.2.1 ⟨false, Except.ok none, Except.ok ()⟩ []
    "TypeError: NoneType comparison" (by decide)
  simpa using h2

/-!
Structural lemmas about the per item loop body.
-/

theorem countSubmit_readThen {α : Type} (r : FieldRead α)
    (k : α → List Action × AddStep) (h : ∀ a, countSubmit (k a).1 = 0) :
    countSubmit (readThen r k).1 = 0 := by
  cases r with
  | error m => rfl
  | ok a => exact h a

theorem countSubmit_withActs (pre : List Action) (r : List Action × AddStep)
    (h1 : countSubmit pre = 0) (h2 : countSubmit r.1 = 0) :
    countSubmit (withActs pre r).1 = 0 := by
  simp [withActs, countSubmit_append, h1, h2]

theorem countSubmit_tryBody (p : Params) (it : Item) (disp : Display)
    (added : Nat) :
    countSubmit (tryBody p it disp added).1 =
      countSubmit (itemBody p it disp added).1 := by
  unfold tryBody
  rcases h : itemBody p it disp added with ⟨acts, step⟩
  cases step with
  | fallthrough a =>
    dsimp only
    split_ifs <;> simp [countSubmit_append, countSubmit]
  | cont a => rfl
  | exn m => rfl
  | exited => rfl

theorem bodyAdd_dry (p : Params) (it : Item) (disp : Display) (added : Nat)
    (h : p.dryRun = true) :
    countSubmit (bodyAdd p it disp added).1 = 0 := by
  simp [bodyAdd, withActs, h, countSubmit]

theorem bodyRt_dry (p : Params) (it : Item) (disp : Display) (added : Nat)
    (h : p.dryRun = true) :
    countSubmit (bodyRt p it disp added).1 = 0 := by
  unfold bodyRt
  split_ifs with h1
  · apply countSubmit_readThen
    intro ok
    split_ifs
    · exact bodyAdd_dry p it disp added h
    · rfl
  · exact bodyAdd_dry p it disp added h

theorem bodyBlacklist_dry (p : Params) (it : Item) (disp : Display)
    (added : Nat) (h : p.dryRun = true) :
    countSubmit (bodyBlacklist p it disp added).1 = 0 := by
  unfold bodyBlacklist
  apply countSubmit_readThen
  intro bl
  split_ifs
  · rfl
  · exact bodyRt_dry p it disp added h

theorem bodyGenre_dry (p : Params) (it : Item) (disp : Display) (added : Nat)
    (h : p.dryRun = true) :
    countSubmit (bodyGenre p it disp added).1 = 0 := by
  unfold bodyGenre
  split_ifs with h1
  · apply countSubmit_readThen
    intro ok
    split_ifs
    · exact bodyBlacklist_dry p it disp added h
    · rfl
  · exact bodyBlacklist_dry p it disp added h

theorem itemBody_dry (p : Params) (it : Item) (disp : Display) (added : Nat)
    (h : p.dryRun = true) :
    countSubmit (itemBody p it disp added).1 = 0 := by
  unfold itemBody
  split_ifs with h1
  · apply countSubmit_withActs _ _ (by rfl)
    apply countSubmit_readThen
    intro ok
    split_ifs
    · exact bodyGenre_dry p it disp added h
    · rfl
  · exact bodyGenre_dry p it disp added h

theorem processLoop_dry (p : Params) (hdry : p.dryRun = true)
    (items : List Item) :
    ∀ added, countSubmit (loopActs (processLoop p items added)) = 0 := by
  induction items with
  | nil => intro added; rfl
  | cons it rest ih =>
    intro added
    rcases hd : extractDisplay it.env with m | disp
    · simp [processLoop, hd, loopActs, countSubmit]
    · rcases ht : tryBody p it disp added with ⟨acts, res⟩
      have hacts : countSubmit acts = 0 := by
        have hcs := countSubmit_tryBody p it disp added
        rw [ht] at hcs
        rw [hcs]
        exact itemBody_dry p it disp added hdry
      cases res with
      | exn m =>
        simp [processLoop, hd, ht, loopActs_prependActs, countSubmit_append,
              hacts, ih added, countSubmit]
      | exited => simp [processLoop, hd, ht, loopActs, hacts]
      | ok a brk =>
        cases brk
        · simp [processLoop, hd, ht, loopActs_prependActs, countSubmit_append,
                hacts, ih a]
        · simp [processLoop, hd, ht, loopActs, hacts]

theorem countSubmit_if (c : Prop) [Decidable c] (l1 l2 : List Action)
    (h1 : countSubmit l1 = 0) (h2 : countSubmit l2 = 0) :
    countSubmit (if c then l1 else l2) = 0 := by
  split_ifs <;> assumption

theorem countSubmit_validate_pvr (v n : Bool) :
    countSubmit (validate_pvr v n).1 = 0 := by
  unfold validate_pvr
  split_ifs <;> simp [countSubmit_append, countSubmit]

theorem countSubmit_loopAndReport (p : Params) (items : List Item)
    (nots verbose : Bool) (cfg : Cfg) :
    countSubmit (loopAndReport p items nots verbose cfg).2.1 =
      countSubmit (loopActs (processLoop p items 0)) := by
  unfold loopAndReport
  rcases h : processLoop p items 0 with ⟨n, acts, rem⟩ | ⟨m, acts⟩ | acts <;>
    simp [loopActs, countSubmit_append, countSubmit] <;>
    split_ifs <;> simp [countSubmit]

/-!
Claim C1: dry run never submits.
-/

/-- C1: for every pipeline invocation with dry run set, and whatever the
filter outcomes and external call results, no inventory submission
(add_series or add_movie) ever occurs: the trace of the invocation contains
no submit action. -/
theorem c1_dry_run_never_submits (a : ProcessArgs) (env : PipelineEnv)
    (cfg0 : Cfg) (h : a.dryRun = true) :
    countSubmit (process_media a env cfg0).2.1 = 0 := by
  unfold process_media
  cases htv : env.traktValid with
  | false => simp [countSubmit_append, countSubmit, countSubmit_if]
  | true =>
    simp only [htv, Bool.not_true, Bool.false_eq_true, if_false]
    cases hq : env.qualityProfileId with
    | none =>
      simp [countSubmit_append, countSubmit, countSubmit_if,
            countSubmit_validate_pvr]
    | some q =>
      dsimp only
      by_cases hq0 : q ≤ 0
      · simp [hq0, countSubmit_append, countSubmit, countSubmit_if,
              countSubmit_validate_pvr]
      · simp only [hq0, if_false]
        by_cases hobj : env.pvrObjectCount = 0
        · simp [hobj, countSubmit_append, countSubmit, countSubmit_if,
                countSubmit_validate_pvr]
        · simp only [hobj, if_false]
          by_cases htl : env.traktList = none ∨ env.traktList.getD [] = []
          · simp [htl, countSubmit_append, countSubmit, countSubmit_if,
                  countSubmit_validate_pvr]
          · simp only [htl, if_false]
            rcases hrec :
                (match a.mediaType with
                 | MediaType.shows => (env.reconcileShows, env.reconcileShows.isSome)
                 | MediaType.movies => env.reconcileMovies) with ⟨olist, flag⟩
            cases olist with
            | none =>
              cases flag <;>
                simp [hrec, countSubmit_append, countSubmit, countSubmit_if,
                      countSubmit_validate_pvr]
            | some processed =>
              simp only [hrec]
              rw [countSubmit_append, countSubmit_loopAndReport]
              simp [countSubmit_append, countSubmit, countSubmit_if,
                    countSubmit_validate_pvr]
              exact processLoop_dry _ h _ 0

/-- Witness for C1 at concrete inputs: a dry run over one eligible show item
completes with a submission free trace. -/
theorem c1_dry_run_never_submits_witness :
    countSubmit (process_media { argsShows with dryRun := true }
      (pipeEnvA [itemA] (some [itemA])) cfgA).2.1 = 0 :=
  c1_dry_run_never_submits { argsShows with dryRun := true }
    (pipeEnvA [itemA] (some [itemA])) cfgA (by decide)

/-!
Evaluation lemmas for clean items, used by the add limit claim.
-/

theorem extractDisplay_ok_of_clean (it : Item) (hc : itemClean it) :
    ∃ d, extractDisplay it.env = Except.ok d := by
  obtain ⟨hti, htm, him, _, _, hyr, hgs, -⟩ := hc
  rcases (isOkB_iff _).1 hti with ⟨t, h1⟩
  rcases (isOkB_iff _).1 htm with ⟨tm, h2⟩
  rcases (isOkB_iff _).1 him with ⟨im, h3⟩
  rcases (isOkB_iff _).1 hyr with ⟨y, h4⟩
  rcases (isOkB_iff _).1 hgs with ⟨gs, h5⟩
  refine ⟨{ title := t, tmdbId := tm, imdbId := im, yearStr := yearString y,
            genresStr := genresString gs }, ?_⟩
  unfold extractDisplay
  rw [h1, h2, h3, h4, h5]
  rfl

theorem addShowSubmit_clean (p : Params) (it : Item) (added : Nat)
    (hc : itemClean it) :
    (addShowSubmit p it added).2 = AddStep.fallthrough (added + 1)
    ∧ countSubmit (addShowSubmit p it added).1 = 1 := by
  obtain ⟨hti, -, -, htv, hsl, -, hgs, -, -, -, -, -, -, har⟩ := hc
  rcases (isOkB_iff _).1 hti with ⟨t, h1⟩
  rcases (isOkB_iff _).1 htv with ⟨tv, h2⟩
  rcases (isOkB_iff _).1 hsl with ⟨sl, h3⟩
  rcases (isOkB_iff _).1 hgs with ⟨gs, h4⟩
  constructor <;>
    simp [addShowSubmit, readThen, withActs, h1, h2, h3, h4, har,
          countSubmit, countSubmit_if]

theorem addMoviePath_clean (p : Params) (it : Item) (added : Nat)
    (hc : itemClean it) :
    (addMoviePath p it added).2 = AddStep.fallthrough (added + 1)
    ∧ countSubmit (addMoviePath p it added).1 = 1 := by
  obtain ⟨hti, htm, -, -, hsl, hyr, -, -, -, -, -, -, -, har⟩ := hc
  rcases (isOkB_iff _).1 hti with ⟨t, h1⟩
  rcases (isOkB_iff _).1 htm with ⟨tm, h2⟩
  rcases (isOkB_iff _).1 hsl with ⟨sl, h3⟩
  rcases (isOkB_iff _).1 hyr with ⟨y, h4⟩
  constructor <;>
    simp [addMoviePath, readThen, withActs, h1, h2, h3, h4, har,
          countSubmit, countSubmit_if]

theorem addShowPath_clean (p : Params) (it : Item) (added : Nat)
    (hc : itemClean it) :
    (addShowPath p it added).2 = AddStep.fallthrough (added + 1)
    ∧ countSubmit (addShowPath p it added).1 = 1 := by
  have hsub := addShowSubmit_clean p it added hc
  obtain ⟨-, -, -, -, -, -, -, -, -, -, -, hlp, htg, -⟩ := hc
  rcases (isOkB_iff _).1 hlp with ⟨n, h1⟩
  rcases htc : it.oracle.tagsCall with m | (_ | t)
  · simp [tagsAvailable, htc] at htg
  · simp [tagsAvailable, htc] at htg
  · by_cases hts : p.sonarrTagsSet <;>
      constructor <;>
      simp [addShowPath, readThen, withActs, h1, htc, hts, hsub.1, hsub.2,
            countSubmit]

theorem bodyAdd_clean (p : Params) (it : Item) (disp : Display) (added : Nat)
    (hc : itemClean it) (hd : p.dryRun = false) :
    (bodyAdd p it disp added).2 = AddStep.fallthrough (added + 1)
    ∧ countSubmit (bodyAdd p it disp added).1 = 1 := by
  cases hmt : p.mediaType with
  | shows =>
    have hp := addShowPath_clean p it added hc
    constructor <;> simp [bodyAdd, withActs, hd, hmt, hp.1, hp.2,
                          countSubmit_append, countSubmit]
  | movies =>
    have hp := addMoviePath_clean p it added hc
    constructor <;> simp [bodyAdd, withActs, hd, hmt, hp.1, hp.2,
                          countSubmit_append, countSubmit]

theorem itemBody_clean_eligible (p : Params) (it : Item) (disp : Display)
    (added : Nat) (hc : itemClean it) (hd : p.dryRun = false)
    (he : eligible p it = true) :
    (itemBody p it disp added).2 = AddStep.fallthrough (added + 1)
    ∧ countSubmit (itemBody p it disp added).1 = 1 := by
  have hAdd := bodyAdd_clean p it disp added hc hd
  obtain ⟨-, -, -, -, -, -, -, hvf, hag, hbl, hrt, -, -, -⟩ := hc
  rcases (isOkB_iff _).1 hvf with ⟨bv, hbv⟩
  rcases (isOkB_iff _).1 hag with ⟨bg, hbg⟩
  rcases (isOkB_iff _).1 hbl with ⟨bb, hbb⟩
  rcases (isOkB_iff _).1 hrt with ⟨br, hbr⟩
  simp only [eligible, hbv, hbg, hbb, hbr, exVal, Bool.and_eq_true,
             Bool.or_eq_true, Bool.not_eq_true] at he
  obtain ⟨⟨⟨he1, he2⟩, he3⟩, he4⟩ := he
  have hRt : (bodyRt p it disp added).2 = AddStep.fallthrough (added + 1)
      ∧ countSubmit (bodyRt p it disp added).1 = 1 := by
    by_cases hg : rtGateActive p
    · have hbrT : br = true := by
        rcases he4 with h | h
        · simp [hg] at h
        · exact h
      constructor <;> simp [bodyRt, hg, readThen, hbr, hbrT, hAdd.1, hAdd.2]
    · constructor <;> simp [bodyRt, hg, hAdd.1, hAdd.2]
  have hbbF : bb = false := by simpa using he3
  have hBl : (bodyBlacklist p it disp added).2 = AddStep.fallthrough (added + 1)
      ∧ countSubmit (bodyBlacklist p it disp added).1 = 1 := by
    constructor <;> simp [bodyBlacklist, readThen, hbb, hbbF, hRt.1, hRt.2]
  have hGe : (bodyGenre p it disp added).2 = AddStep.fallthrough (added + 1)
      ∧ countSubmit (bodyGenre p it disp added).1 = 1 := by
    by_cases hg : p.genreFilterActive
    · have hbgT : bg = true := by
        rcases he2 with h | h
        · simp [hg] at h
        · exact h
      constructor <;> simp [bodyGenre, hg, readThen, hbg, hbgT, hBl.1, hBl.2]
    · constructor <;> simp [bodyGenre, hg, hBl.1, hBl.2]
  by_cases hv : p.hasValidateFunc
  · have hbvT : bv = true := by
      rcases he1 with h | h
      · simp [hv] at h
      · exact h
    constructor <;> simp [itemBody, hv, readThen, withActs, hbv, hbvT,
                          hGe.1, hGe.2, countSubmit_append, countSubmit]
  · constructor <;> simp [itemBody, hv, hGe.1, hGe.2]

theorem itemBody_clean_ineligible (p : Params) (it : Item) (disp : Display)
    (added : Nat) (hc : itemClean it) (he : eligible p it = false) :
    (itemBody p it disp added).2 = AddStep.cont added
    ∧ countSubmit (itemBody p it disp added).1 = 0 := by
  obtain ⟨-, -, -, -, -, -, -, hvf, hag, hbl, hrt, -, -, -⟩ := hc
  rcases (isOkB_iff _).1 hvf with ⟨bv, hbv⟩
  rcases (isOkB_iff _).1 hag with ⟨bg, hbg⟩
  rcases (isOkB_iff _).1 hbl with ⟨bb, hbb⟩
  rcases (isOkB_iff _).1 hrt with ⟨br, hbr⟩
  by_cases h1 : p.hasValidateFunc <;> by_cases h2 : p.genreFilterActive <;>
    by_cases h3 : rtGateActive p = true <;>
    cases bv <;> cases bg <;> cases bb <;> cases br <;>
    simp_all [itemBody, bodyGenre, bodyBlacklist, bodyRt, eligible, exVal,
              readThen, withActs, countSubmit]

theorem tryBody_clean_eligible (p : Params) (it : Item) (disp : Display)
    (added : Nat) (hc : itemClean it) (hd : p.dryRun = false)
    (he : eligible p it = true) :
    (tryBody p it disp added).2 =
      (if p.addLimit ≠ 0 ∧ p.addLimit ≤ added + 1 then
        TryResult.ok (added + 1) true else TryResult.ok (added + 1) false)
    ∧ countSubmit (tryBody p it disp added).1 = 1 := by
  have hib := itemBody_clean_eligible p it disp added hc hd he
  have hcs := countSubmit_tryBody p it disp added
  rcases hb : itemBody p it disp added with ⟨acts, step⟩
  rw [hb] at hib
  simp only at hib
  rw [hib.1] at hb
  constructor
  · unfold tryBody
    rw [hb]
    dsimp only
    split_ifs <;> rfl
  · rw [hcs, hb]
    exact hib.2

theorem tryBody_clean_ineligible (p : Params) (it : Item) (disp : Display)
    (added : Nat) (hc : itemClean it) (he : eligible p it = false) :
    (tryBody p it disp added).2 = TryResult.ok added false
    ∧ countSubmit (tryBody p it disp added).1 = 0 := by
  have hib := itemBody_clean_ineligible p it disp added hc he
  have hcs := countSubmit_tryBody p it disp added
  rcases hb : itemBody p it disp added with ⟨acts, step⟩
  rw [hb] at hib
  simp only at hib
  rw [hib.1] at hb
  constructor
  · unfold tryBody
    rw [hb]
  · rw [hcs, hb]
    exact hib.2

theorem prependActs_finished_inv (pre : List Action) (r : LoopRes) (n : Nat)
    (acts : List Action) (rem : List Item)
    (h : prependActs pre r = LoopRes.finished n acts rem) :
    ∃ acts2, r = LoopRes.finished n acts2 rem ∧ acts = pre ++ acts2 := by
  cases r with
  | finished a as rm =>
    simp [prependActs] at h
    exact ⟨as, by simp [h.1, h.2.2], by simp [h.2.1]⟩
  | raised m as => simp [prependActs] at h
  | exited as => simp [prependActs] at h

/-- The per item loop with an add limit: if every item is clean, dry run is
off, the counter is below the limit and the remaining eligible items suffice,
the loop returns exactly the limit, having consumed a prefix containing
exactly the missing number of eligible items and submitting exactly that many
times. -/
theorem processLoop_limit (p : Params) (hd : p.dryRun = false) :
    ∀ (items : List Item) (added : Nat),
      (∀ it ∈ items, itemClean it) →
      added < p.addLimit →
      p.addLimit - added ≤ items.countP (eligible p) →
      ∃ consumed rem acts,
        items = consumed ++ rem
        ∧ processLoop p items added = LoopRes.finished p.addLimit acts rem
        ∧ countSubmit acts = p.addLimit - added
        ∧ consumed.countP (eligible p) = p.addLimit - added := by
  intro items
  induction items with
  | nil =>
    intro added hcl hlt hle
    rw [List.countP_nil] at hle
    omega
  | cons it rest ih =>
    intro added hcl hlt hle
    have hcI : itemClean it := hcl it (by simp)
    obtain ⟨disp, hdisp⟩ := extractDisplay_ok_of_clean it hcI
    by_cases helig : eligible p it = true
    · have hev := tryBody_clean_eligible p it disp added hcI hd helig
      rcases htb : tryBody p it disp added with ⟨acts, res⟩
      rw [htb] at hev
      simp only at hev
      by_cases hbrk : p.addLimit ≠ 0 ∧ p.addLimit ≤ added + 1
      · have hres : res = TryResult.ok (added + 1) true := by
          rw [hev.1, if_pos hbrk]
        have hlim : p.addLimit = added + 1 := by omega
        refine ⟨[it], rest, acts, by simp, ?_, ?_, ?_⟩
        · simp only [processLoop, hdisp, htb, hres]
          simp [hlim]
        · rw [hev.2]
          omega
        · simp [List.countP_cons, helig]
          omega
      · have hres : res = TryResult.ok (added + 1) false := by
          rw [hev.1, if_neg hbrk]
        have hlt2 : added + 1 < p.addLimit := by
          rcases Decidable.not_and_iff_or_not.1 hbrk with h | h
          · omega
          · omega
        have hle2 : p.addLimit - (added + 1) ≤ rest.countP (eligible p) := by
          have hcp : (it :: rest).countP (eligible p) =
              rest.countP (eligible p) + 1 := by
            simp [List.countP_cons, helig]
          omega
        obtain ⟨consumed, rem, acts2, hsplit, hloop, hcs2, hcp2⟩ :=
          ih (added + 1) (fun x hx => hcl x (by simp [hx])) hlt2 hle2
        refine ⟨it :: consumed, rem, acts ++ acts2, by simp [hsplit], ?_, ?_, ?_⟩
        · simp only [processLoop, hdisp, htb, hres, if_neg]
          rw [hloop]
          rfl
        · rw [countSubmit_append, hev.2, hcs2]
          omega
        · simp [List.countP_cons, helig, hcp2]
          omega
    · have hne : eligible p it = false := by
        cases hef : eligible p it
        · rfl
        · exact absurd hef helig
      have hev := tryBody_clean_ineligible p it disp added hcI hne
      rcases htb : tryBody p it disp added with ⟨acts, res⟩
      rw [htb] at hev
      simp only at hev
      have hle2 : p.addLimit - added ≤ rest.countP (eligible p) := by
        have hcp : (it :: rest).countP (eligible p) =
            rest.countP (eligible p) := by
          simp [List.countP_cons, hne]
        omega
      obtain ⟨consumed, rem, acts2, hsplit, hloop, hcs2, hcp2⟩ :=
        ih added (fun x hx => hcl x (by simp [hx])) hlt hle2
      refine ⟨it :: consumed, rem, acts ++ acts2, by simp [hsplit], ?_, ?_, ?_⟩
      · simp only [processLoop, hdisp, htb, hev.1, if_neg]
        rw [hloop]
        rfl
      · rw [countSubmit_append, hev.2, hcs2]
        omega
      · simp [List.countP_cons, hne, hcp2]

theorem tryBody_no_break (p : Params) (it : Item) (disp : Display)
    (added : Nat) (h0 : p.addLimit = 0) :
    ∀ a, (tryBody p it disp added).2 ≠ TryResult.ok a true := by
  intro a
  unfold tryBody
  rcases itemBody p it disp added with ⟨acts, step⟩
  cases step with
  | fallthrough b =>
    dsimp only
    rw [if_neg (by simp [h0])]
    simp
  | cont b => simp
  | exn m => simp
  | exited => simp

/-- With a zero add limit the loop is never cut short by the limit check:
whenever it finishes, no unvisited suffix remains. -/
theorem processLoop_nolimit (p : Params) (h0 : p.addLimit = 0) :
    ∀ (items : List Item) (added n : Nat) (acts : List Action)
      (rem : List Item),
      processLoop p items added = LoopRes.finished n acts rem → rem = [] := by
  intro items
  induction items with
  | nil =>
    intro added n acts rem h
    simp [processLoop] at h
    exact h.2.2
  | cons it rest ih =>
    intro added n acts rem h
    rcases hdisp : extractDisplay it.env with m | disp
    · simp [processLoop, hdisp] at h
    · rw [processLoop, hdisp] at h
      dsimp only at h
      rcases htb : tryBody p it disp added with ⟨acts1, res⟩
      rw [htb] at h
      cases res with
      | exn m =>
        dsimp only at h
        obtain ⟨acts2, h2, -⟩ := prependActs_finished_inv _ _ _ _ _ h
        exact ih added n acts2 rem h2
      | exited =>
        dsimp only at h
        simp at h
      | ok a brk =>
        cases brk with
        | true =>
          exfalso
          have hnb := tryBody_no_break p it disp added h0 a
          rw [htb] at hnb
          exact hnb rfl
        | false =>
          dsimp only at h
          rw [if_neg (by simp)] at h
          obtain ⟨acts2, h2, -⟩ := prependActs_finished_inv _ _ _ _ _ h
          exact ih a n acts2 rem h2

/-!
Claim C2: add limit enforcement.
-/

/-- C2: with a positive add limit N, all items clean and successfully
submittable, dry run off, and at least N eligible items in the list, the loop
performs exactly N submissions and stops right after the N-th eligible item:
the consumed prefix contains exactly N eligible items, so the loop never
evaluates the item after the N-th eligible one; and with a zero add limit the
loop is never cut short by the limit check. -/
theorem c2_add_limit (p : Params) (items : List Item) (N : Nat)
    (hN : p.addLimit = N) (hpos : 0 < N) (hd : p.dryRun = false)
    (hclean : ∀ it ∈ items, itemClean it)
    (helig : N ≤ items.countP (eligible p)) :
    (∃ consumed rem acts,
        items = consumed ++ rem
        ∧ processLoop p items 0 = LoopRes.finished N acts rem
        ∧ countSubmit acts = N
        ∧ consumed.countP (eligible p) = N)
    ∧ (∀ (q : Params) (its : List Item) (a n : Nat) (acts : List Action)
         (rem : List Item), q.addLimit = 0 →
         processLoop q its a = LoopRes.finished n acts rem → rem = []) := by
  subst hN
  constructor
  · obtain ⟨consumed, rem, acts, h1, h2, h3, h4⟩ :=
      processLoop_limit p hd items 0 hclean hpos (by simpa using helig)
    exact ⟨consumed, rem, acts, h1, h2, by simpa using h3, by simpa using h4⟩
  · intro q its a n acts rem h0 h
    exact processLoop_nolimit q h0 its a n acts rem h

/-- Witness for C2 at concrete inputs: with limit one and two clean eligible
items, the loop finishes at one with one submission, leaving the second item
unvisited. -/
theorem c2_add_limit_witness :
    ∃ consumed rem acts,
      [itemA, itemB] = consumed ++ rem
      ∧ processLoop { paramsShows with addLimit := 1 } [itemA, itemB] 0 =
          LoopRes.finished 1 acts rem
      ∧ countSubmit acts = 1
      ∧ consumed.countP (eligible { paramsShows with addLimit := 1 }) = 1 :=
  (c2_add_limit { paramsShows with addLimit := 1 } [itemA, itemB] 1
    (by decide) (by decide) (by decide)
    (by intro it h; fin_cases h <;> decide) (by decide)).1

/-!
Claim C6: per item exception containment.
-/

/-- C6 counterexample: an exception while reading the title of an item is
raised outside the try block of the loop body, so it aborts the whole run
instead of being caught: the loop result is an uncaught exception, the second
item is never processed and no exception log with the item identity is
emitted. This falsifies the claim that any exception raised while processing
a single item, including reading its title, is caught and the loop proceeds
to the next item. -/
theorem c6_counterexample :
    processLoop paramsShows [itemBadTitle, itemB] 0 =
      LoopRes.raised "KeyError: title" [] := by
  decide

/-- C6 amended: an exception raised inside the try block (once the display
variables were extracted) is caught, logged with the item title, and the loop
proceeds to the next item; but an exception raised while extracting the
display variables (title, ids, year, genres), which happens before the try
block, propagates and aborts the whole run. -/
theorem c6_amended (p : Params) (it : Item) (rest : List Item) (added : Nat)
    (disp : Display) (m : Exn) (acts : List Action)
    (hd : extractDisplay it.env = Except.ok disp)
    (hb : tryBody p it disp added = (acts, TryResult.exn m)) :
    processLoop p (it :: rest) added =
      prependActs (acts ++ [Action.logExn disp.title]) (processLoop p rest added)
    ∧ (∀ (it2 : Item) (m2 : Exn) (rest2 : List Item),
        extractDisplay it2.env = Except.error m2 →
        processLoop p (it2 :: rest2) added = LoopRes.raised m2 []) := by
  constructor
  · rw [processLoop, hd]
    dsimp only
    rw [hb]
  · intro it2 m2 rest2 h2
    rw [processLoop, h2]

/-- Witness for C6 amended at concrete inputs: a blacklist evaluation that
raises is caught and logged, and the loop continues with the next item. -/
theorem c6_amended_witness :
    processLoop paramsShows [itemRaising, itemB] 0 =
      prependActs ([] ++ [Action.logExn "Alpha"])
        (processLoop paramsShows [itemB] 0) := by
  have h := c6_amended paramsShows itemRaising [itemB] 0
    { title := "Alpha", tmdbId := some 603, imdbId := some "tt1",
      yearStr := "1999", genresStr := "action" }
    "ValueError" [] (by decide) (by decide)
  exact h.1

/-!
Claim C7: the inter item sleep.
-/

theorem sleep_notin_readThen {α : Type} (r : FieldRead α)
    (k : α → List Action × AddStep) (h : ∀ a, Action.sleepDelay ∉ (k a).1) :
    Action.sleepDelay ∉ (readThen r k).1 := by
  cases r with
  | error m => simp [readThen]
  | ok a => exact h a

theorem sleep_notin_withActs (pre : List Action) (r : List Action × AddStep)
    (h1 : Action.sleepDelay ∉ pre) (h2 : Action.sleepDelay ∉ r.1) :
    Action.sleepDelay ∉ (withActs pre r).1 := by
  intro hmem
  rcases List.mem_append.1 (by simpa [withActs] using hmem) with h | h
  · exact h1 h
  · exact h2 h

theorem sleep_notin_addShowSubmit (p : Params) (it : Item) (added : Nat) :
    Action.sleepDelay ∉ (addShowSubmit p it added).1 := by
  unfold addShowSubmit
  apply sleep_notin_readThen
  intro _
  apply sleep_notin_readThen
  intro _
  apply sleep_notin_readThen
  intro title
  apply sleep_notin_readThen
  intro _
  apply sleep_notin_withActs _ _ (by simp)
  apply sleep_notin_readThen
  intro res
  cases res
  · simp
  · split_ifs <;> simp

theorem sleep_notin_addShowPath (p : Params) (it : Item) (added : Nat) :
    Action.sleepDelay ∉ (addShowPath p it added).1 := by
  unfold addShowPath
  apply sleep_notin_withActs _ _ (by simp)
  apply sleep_notin_readThen
  intro _
  split_ifs with hts
  · apply sleep_notin_withActs _ _ (by simp)
    rcases it.oracle.tagsCall with m | (_ | t)
    · simp
    · simp
    · exact sleep_notin_addShowSubmit p it added
  · exact sleep_notin_addShowSubmit p it added

theorem sleep_notin_addMoviePath (p : Params) (it : Item) (added : Nat) :
    Action.sleepDelay ∉ (addMoviePath p it added).1 := by
  unfold addMoviePath
  apply sleep_notin_readThen
  intro _
  apply sleep_notin_readThen
  intro title
  apply sleep_notin_readThen
  intro _
  apply sleep_notin_readThen
  intro _
  apply sleep_notin_withActs _ _ (by simp)
  apply sleep_notin_readThen
  intro res
  cases res
  · simp
  · split_ifs <;> simp

theorem sleep_notin_itemBody (p : Params) (it : Item) (disp : Display)
    (added : Nat) : Action.sleepDelay ∉ (itemBody p it disp added).1 := by
  have hAdd : Action.sleepDelay ∉ (bodyAdd p it disp added).1 := by
    unfold bodyAdd
    apply sleep_notin_withActs _ _ (by simp)
    split_ifs
    · simp
    · cases p.mediaType
      · exact sleep_notin_addShowPath p it added
      · exact sleep_notin_addMoviePath p it added
  have hRt : Action.sleepDelay ∉ (bodyRt p it disp added).1 := by
    unfold bodyRt
    split_ifs
    · apply sleep_notin_readThen
      intro ok
      split_ifs
      · exact hAdd
      · simp
    · exact hAdd
  have hBl : Action.sleepDelay ∉ (bodyBlacklist p it disp added).1 := by
    unfold bodyBlacklist
    apply sleep_notin_readThen
    intro bl
    split_ifs
    · simp
    · exact hRt
  have hGe : Action.sleepDelay ∉ (bodyGenre p it disp added).1 := by
    unfold bodyGenre
    split_ifs
    · apply sleep_notin_readThen
      intro ok
      split_ifs
      · exact hBl
      · simp
    · exact hBl
  unfold itemBody
  split_ifs
  · apply sleep_notin_withActs _ _ (by simp)
    apply sleep_notin_readThen
    intro ok
    split_ifs
    · exact hGe
    · simp
  · exact hGe

/-- C7 counterexample: a skipped (blacklisted) item is followed immediately
by the next item with no inter item sleep: in the trace of a run over a
blacklisted item and then an added item, the only sleep comes after the
second item, not between the two. This falsifies the claim that the
orchestrator sleeps between every two successively processed items
independent of whether the previous item was skipped. -/
theorem c7_counterexample :
    processLoop paramsShows [itemBlacklisted, itemA] 0 =
      LoopRes.finished 1
        [Action.logInfo "SKIPPED: Beta", Action.logInfo "ADDING: Alpha",
         Action.callGetLanguageProfile, Action.submit "Alpha",
         Action.sleepDelay] [] := by
  decide

/-- C7 amended: the inter item sleep happens only after an item that fell
through the whole body (not skipped: dry run logged or successfully
submitted) and whose processing did not trigger the add limit break; after a
continue statement (a skipped item or a failed submission) the loop moves to
the next item immediately, with no sleep in that item's trace. -/
theorem c7_amended (p : Params) (it : Item) (disp : Display) (added : Nat) :
    (∀ acts a, itemBody p it disp added = (acts, AddStep.cont a) →
        tryBody p it disp added = (acts, TryResult.ok a false)
        ∧ Action.sleepDelay ∉ acts)
    ∧ (∀ acts a, itemBody p it disp added = (acts, AddStep.fallthrough a) →
        ((p.addLimit ≠ 0 ∧ p.addLimit ≤ a) →
           tryBody p it disp added = (acts, TryResult.ok a true)
           ∧ Action.sleepDelay ∉ acts)
        ∧ (¬(p.addLimit ≠ 0 ∧ p.addLimit ≤ a) →
           tryBody p it disp added = (acts ++ [Action.sleepDelay],
             TryResult.ok a false))) := by
  have hsleep := sleep_notin_itemBody p it disp added
  constructor
  · intro acts a hib
    rw [hib] at hsleep
    refine ⟨?_, hsleep⟩
    unfold tryBody
    rw [hib]
  · intro acts a hib
    rw [hib] at hsleep
    constructor
    · intro hbrk
      refine ⟨?_, hsleep⟩
      unfold tryBody
      rw [hib]
      dsimp only
      rw [if_pos hbrk]
    · intro hbrk
      unfold tryBody
      rw [hib]
      dsimp only
      rw [if_neg hbrk]

/-- Witness for C7 amended at concrete inputs: the blacklisted test item
produces a continue step whose trace carries no sleep. -/
theorem c7_amended_witness :
    tryBody paramsShows itemBlacklisted
        { title := "Beta", tmdbId := some 604, imdbId := some "tt1",
          yearStr := "1999", genresStr := "action" } 0 =
      ([Action.logInfo "SKIPPED: Beta"], TryResult.ok 0 false)
    ∧ Action.sleepDelay ∉ [Action.logInfo "SKIPPED: Beta"] := by
  have h := (c7_amended paramsShows itemBlacklisted
    { title := "Beta", tmdbId := some 604, imdbId := some "tt1",
      yearStr := "1999", genresStr := "action" } 0).1
    [Action.logInfo "SKIPPED: Beta"] 0 (by decide)
  exact h

/-!
Claim C3: a failed inventory target credential validation does not abort.
-/

/-- C3 evidence: validate_pvr reports failure by returning None after logging
a message that claims to be aborting, but the pipeline discards that result:
with failed PVR credentials and every other call succeeding, the invocation
still proceeds through the quality profile lookup, the inventory fetch and an
actual submission, finishing with one item added. This contradicts the claim
(and the intent evidenced by the log text and by validate_trakt, which
exits): the failure is silently ignored rather than aborting the
invocation. -/
theorem c3_pvr_validation_failure_not_aborting :
    (validate_pvr false false).2 = none
    ∧ (process_media argsShows
        { pipeEnvA [itemA] (some [itemA]) with pvrValid := false } cfgA).1 =
        PipeResult.finished 1
    ∧ Action.submit "Alpha" ∈
        (process_media argsShows
          { pipeEnvA [itemA] (some [itemA]) with pvrValid := false } cfgA).2.1
    ∧ Action.logError "Aborting due to failure to validate PVR URL / API Key" ∈
        (process_media argsShows
          { pipeEnvA [itemA] (some [itemA]) with pvrValid := false } cfgA).2.1
    ∧ Action.callGetQualityProfile ∈
        (process_media argsShows
          { pipeEnvA [itemA] (some [itemA]) with pvrValid := false }
          cfgA).2.1 := by
  refine ⟨rfl, ?_, ?_, ?_, ?_⟩ <;> decide

/-!
Claim C5: how the pipeline distinguishes reconciliation outcomes.
-/

/-- C5 counterexample: with the show reconciler modelled from the spec
(returning an empty non None list when everything was filtered), an empty but
successful reconciliation is not a distinct terminal state returning no
result: the pipeline proceeds into the loop and returns a zero count, and the
distinct no items left log line is never emitted. This falsifies the claim
that the empty successful outcome returns no result rather than a zero
count. -/
theorem c5_counterexample :
    remove_existing_series_from_trakt_list true [267440] [itemA] = some []
    ∧ (process_media argsShows
        (pipeEnvA [itemA]
          (remove_existing_series_from_trakt_list true [267440] [itemA]))
        cfgA).1 = PipeResult.finished 0
    ∧ Action.logInfo "No more items left to process in the list" ∉
        (process_media argsShows
          (pipeEnvA [itemA]
            (remove_existing_series_from_trakt_list true [267440] [itemA]))
          cfgA).2.1 := by
  refine ⟨?_, ?_, ?_⟩ <;> decide

/-- C5 amended: for shows, the pipeline treats a None reconciliation result
as the adapter failure case (because the success flag is defined as the
result being non None): it aborts with the error log and returns no result;
an empty but successful reconciliation (an empty non None list, as the spec
models the show reconciler) instead proceeds through the loop and returns a
zero count; the distinct non error no items left state is unreachable for
shows. -/
theorem c5_amended (a : ProcessArgs) (env : PipelineEnv) (cfg0 : Cfg)
    (q : Int) (L : List Item)
    (hmt : a.mediaType = MediaType.shows)
    (htv : env.traktValid = true)
    (hq : env.qualityProfileId = some q) (hq0 : ¬ q ≤ 0)
    (hobj : ¬ env.pvrObjectCount = 0)
    (htl : env.traktList = some L) (hL : ¬ L = []) :
    (env.reconcileShows = none →
       (process_media a env cfg0).1 = PipeResult.abortedNone
       ∧ Action.logError
           "Aborting due to failure to remove existing items from the Trakt list"
           ∈ (process_media a env cfg0).2.1)
    ∧ (env.reconcileShows = some [] → env.sortFn [] = [] →
       (process_media a env cfg0).1 = PipeResult.finished 0) := by
  constructor
  · intro hrs
    unfold process_media
    simp only [htv, Bool.not_true, Bool.false_eq_true, if_false, hq]
    rw [if_neg hq0, if_neg hobj]
    rw [if_neg (by simp [htl, hL])]
    simp only [hmt, hrs]
    constructor
    · rfl
    · simp [List.mem_append]
  · intro hrs hsort
    unfold process_media
    simp only [htv, Bool.not_true, Bool.false_eq_true, if_false, hq]
    rw [if_neg hq0, if_neg hobj]
    rw [if_neg (by simp [htl, hL])]
    simp only [hmt, hrs]
    rw [hsort]
    rfl

/-- Witness for C5 amended at concrete inputs: a None reconciliation aborts
with the error log, and an empty successful reconciliation finishes with a
zero count. -/
theorem c5_amended_witness :
    ((process_media argsShows (pipeEnvA [itemA] none) cfgA).1 =
        PipeResult.abortedNone
      ∧ Action.logError
          "Aborting due to failure to remove existing items from the Trakt list"
          ∈ (process_media argsShows (pipeEnvA [itemA] none) cfgA).2.1)
    ∧ (process_media argsShows (pipeEnvA [itemA] (some [])) cfgA).1 =
        PipeResult.finished 0 := by
  constructor
  · exact (c5_amended argsShows (pipeEnvA [itemA] none) cfgA 5 [itemA]
      (by decide) (by decide) (by decide) (by decide) (by decide) (by decide)
      (by decide)).1 (by decide)
  · exact (c5_amended argsShows (pipeEnvA [itemA] (some [])) cfgA 5 [itemA]
      (by decide) (by decide) (by decide) (by decide) (by decide) (by decide)
      (by decide)).2 (by decide) (by decide)

/-!
Claim C4: persistence of the ignore genre sentinel.
-/

theorem loopAndReport_cfg (p : Params) (items : List Item)
    (nots verbose : Bool) (cfg : Cfg) :
    (loopAndReport p items nots verbose cfg).2.2 = cfg := by
  unfold loopAndReport
  rcases processLoop p items 0 with ⟨n, acts, rem⟩ | ⟨m, acts⟩ | acts <;> rfl

/-- Every branch of the pipeline leaves the process wide configuration in the
state written by the argument processing phase. -/
theorem process_media_cfg (a : ProcessArgs) (env : PipelineEnv) (cfg0 : Cfg) :
    (process_media a env cfg0).2.2 = pmCfg a env cfg0 := by
  unfold process_media
  cases htv : env.traktValid
  · rfl
  · simp only [htv, Bool.not_true, Bool.false_eq_true, if_false]
    cases hq : env.qualityProfileId
    · rfl
    · dsimp only
      rename_i q
      by_cases hq0 : q ≤ 0
      · rw [if_pos hq0]
      · rw [if_neg hq0]
        by_cases hobj : env.pvrObjectCount = 0
        · rw [if_pos hobj]
        · rw [if_neg hobj]
          by_cases htl : env.traktList = none ∨ env.traktList.getD [] = []
          · rw [if_pos htl]
          · rw [if_neg htl]
            rcases hrec :
                (match a.mediaType with
                 | MediaType.shows => (env.reconcileShows, env.reconcileShows.isSome)
                 | MediaType.movies => env.reconcileMovies) with ⟨olist, flag⟩
            cases olist with
            | none => cases flag <;> simp [hrec]
            | some processed =>
              simp only [hrec]
              exact loopAndReport_cfg _ _ _ _ _

theorem genres_setYearBounds (mt mt2 : MediaType) (lo hi : Option Int)
    (c : Cfg) :
    (mediaFilters mt (setYearBounds mt2 lo hi c)).blacklisted_genres =
      (mediaFilters mt c).blacklisted_genres := by
  cases mt <;> cases mt2 <;> rfl

theorem genres_setRootFolder (mt mt2 : MediaType) (f : String) (c : Cfg) :
    (mediaFilters mt (setRootFolder mt2 f c)).blacklisted_genres =
      (mediaFilters mt c).blacklisted_genres := by
  cases mt <;> cases mt2 <;> rfl

theorem genres_minAvail (mt : MediaType) (m : String) (c : Cfg) :
    (mediaFilters mt
        { c with radarrMinimumAvailability := m }).blacklisted_genres =
      (mediaFilters mt c).blacklisted_genres := by
  cases mt <;> rfl

theorem genres_pmCfg (a : ProcessArgs) (env : PipelineEnv) (c : Cfg)
    (mt : MediaType) :
    (mediaFilters mt (pmCfg a env c)).blacklisted_genres =
      (mediaFilters mt
        (processGenresArg a.mediaType a.genresArg c).2).blacklisted_genres := by
  unfold pmCfg
  rcases a.folder with _ | f <;> rcases a.minimumAvailability with _ | m <;>
    split_ifs <;>
    simp [genres_setYearBounds, genres_setRootFolder, genres_minAvail]

theorem processGenresArg_ignore (mt : MediaType) (s : String) (c : Cfg)
    (hs : ¬ s = "") (hmem : "ignore" ∈ splitComma s) :
    (processGenresArg mt (some s) c).2 = setBlacklistedGenres mt ["ignore"] c
    ∧ (processGenresArg mt (some s) c).1 = none := by
  constructor <;> simp [processGenresArg, hs, hmem]

theorem genres_setBlacklisted_self (mt : MediaType) (gs : List String)
    (c : Cfg) :
    (mediaFilters mt (setBlacklistedGenres mt gs c)).blacklisted_genres = gs := by
  cases mt <;> rfl

/-- C4 counterexample: starting from a configuration whose blacklisted genres
are comedy, one invocation passing the ignore keyword leaves the process wide
configuration with the ignore sentinel, and a subsequent invocation in the
same process (running on the same singleton state, without any genre
argument) still sees and leaves the sentinel instead of the originally
configured value. This falsifies the claim that the sentinel holds for that
run only and that the original configured value is in effect again on
subsequent invocations. -/
theorem c4_counterexample :
    (mediaFilters MediaType.shows cfgA).blacklisted_genres = ["comedy"]
    ∧ (mediaFilters MediaType.shows
        (process_media argsIgnore (pipeEnvA [itemA] (some [itemA]))
          cfgA).2.2).blacklisted_genres = ["ignore"]
    ∧ (mediaFilters MediaType.shows
        (process_media argsShows (pipeEnvA [itemA] (some [itemA]))
          ((process_media argsIgnore (pipeEnvA [itemA] (some [itemA]))
            cfgA).2.2)).2.2).blacklisted_genres = ["ignore"] := by
  refine ⟨rfl, ?_, ?_⟩ <;> decide

/-- C4 amended: when the genre argument contains the ignore keyword, the
inclusion filter is disabled (the genre search parameter becomes None) and
the blacklisted genres of the media kind on the process wide configuration
singleton are overwritten with the ignore sentinel; this mutation is never
restored, so the configuration returned by the invocation, and read by every
subsequent invocation in the same process, carries the sentinel (an
invocation without a genre argument leaves it untouched). -/
theorem c4_amended (a : ProcessArgs) (env : PipelineEnv) (cfg0 : Cfg)
    (s : String) (hg : a.genresArg = some s) (hs : ¬ s = "")
    (hmem : "ignore" ∈ splitComma s) :
    (processGenresArg a.mediaType a.genresArg cfg0).1 = none
    ∧ (mediaFilters a.mediaType
        (process_media a env cfg0).2.2).blacklisted_genres = ["ignore"]
    ∧ (∀ (a2 : ProcessArgs) (env2 : PipelineEnv), a2.genresArg = none →
        (mediaFilters a.mediaType
          (process_media a2 env2
            (process_media a env cfg0).2.2).2.2).blacklisted_genres =
          ["ignore"]) := by
  have hig := processGenresArg_ignore a.mediaType s cfg0 hs hmem
  have hmain : (mediaFilters a.mediaType
      (process_media a env cfg0).2.2).blacklisted_genres = ["ignore"] := by
    rw [process_media_cfg, genres_pmCfg, hg, hig.1, genres_setBlacklisted_self]
  refine ⟨?_, hmain, ?_⟩
  · rw [hg]
    exact hig.2
  · intro a2 env2 hg2
    rw [process_media_cfg, genres_pmCfg, hg2]
    exact hmain

/-- Witness for C4 amended at concrete inputs. -/
theorem c4_amended_witness :
    (processGenresArg argsIgnore.mediaType argsIgnore.genresArg cfgA).1 = none
    ∧ (mediaFilters argsIgnore.mediaType
        (process_media argsIgnore (pipeEnvA [itemA] (some [itemA]))
          cfgA).2.2).blacklisted_genres = ["ignore"]
    ∧ (mediaFilters argsIgnore.mediaType
        (process_media argsShows (pipeEnvA [itemA] (some [itemA]))
          (process_media argsIgnore (pipeEnvA [itemA] (some [itemA]))
            cfgA).2.2).2.2).blacklisted_genres = ["ignore"] := by
  have h := c4_amended argsIgnore (pipeEnvA [itemA] (some [itemA])) cfgA
    "ignore" (by decide) (by decide) (by decide)
  exact ⟨h.1, h.2.1, h.2.2 argsShows (pipeEnvA [itemA] (some [itemA]))
    (by decide)⟩

end Traktarr
